import Mathlib

/-!
# mad-fake-slack: real-time dispatcher, admission and message edit

A shallow embedding of `routes/rtm/index.js` (the `handlers` table, the two
`router.ws` endpoints and their `message` listeners) and of the broadcast and
edit paths of `routes/api/index.js` (`broadcastResponse`, `postMessageHandler`,
`chatUpdateHandler`).

Stateful code is written in explicit state-passing style over a `World`: the
message store, the two connection sets of `wsManager`, and the ordered log of
calls made on the collaborators (`wsManager.sendJson`, the three broadcasts,
`res.json`, `createMessage`, `updateMessage`).  A handler returns an `Outcome`:
the world it leaves behind and the JavaScript exception it raised, if any.

Collaborators whose code lives in other modules (`dbManager`, `utils`,
`factories`) are parameters, gathered in `Env`.
-/

namespace MadFakeSlack

/-! ## JavaScript values that come out of `JSON.parse` -/

/-- A value produced by `JSON.parse`.  Numbers are the integers; an object is
the list of its own properties, each key once. -/
inductive Json where
  | null
  | bool (b : Bool)
  | num (n : Int)
  | str (s : String)
  | arr (items : List Json)
  | obj (fields : List (String × Json))

/-- A JavaScript value a handler can read off a parsed frame: `none` is
`undefined`, which `JSON.parse` never produces but a missing property does. -/
abbrev JsVal := Option Json

/-- The exceptions the embedded code can raise. -/
inductive JsError where
  | syntaxError
  | typeError
deriving DecidableEq, Repr

/-- Own-property lookup in a parsed object. -/
def getField : List (String × Json) → String → JsVal
  | [], _ => none
  | (k, v) :: rest, name => if k = name then some v else getField rest name

/-- Property read `v.name`, for the names the source reads off a frame or a
request body (`type`, `id`, `time`, `channel`, `text`, `ts`), none of which is
defined on a built-in prototype: reading off `null` is a `TypeError`, off an
object it is the own property or `undefined`, off any other value `undefined`. -/
def getProp (v : Json) (name : String) : Except JsError JsVal :=
  match v with
  | .null => .error .typeError
  | .obj fields => .ok (getField fields name)
  | _ => .ok none

mutual
/-- ECMAScript `ToString` on a parsed value.  An array is joined with commas;
an object goes through `Object.prototype.toString` unless it has an own
`toString` property, which is never callable in parsed JSON and leaves
`OrdinaryToPrimitive` with no primitive to return. -/
def Json.toStr : Json → Except JsError String
  | .null => .ok "null"
  | .bool true => .ok "true"
  | .bool false => .ok "false"
  | .num n => .ok (toString n)
  | .str s => .ok s
  | .arr items => Json.joinItems items
  | .obj fields => Json.objToStr fields
/-- `Array.prototype.join` with the default separator: `null` elements give
the empty string. -/
def Json.joinItems : List Json → Except JsError String
  | [] => .ok ""
  | [.null] => .ok ""
  | [x] => Json.toStr x
  | .null :: rest =>
    match Json.joinItems rest with
    | .ok r => .ok ("," ++ r)
    | .error e => .error e
  | x :: rest =>
    match Json.toStr x with
    | .error e => .error e
    | .ok s =>
      match Json.joinItems rest with
      | .ok r => .ok (s ++ "," ++ r)
      | .error e => .error e
/-- String conversion of a plain object. -/
def Json.objToStr : List (String × Json) → Except JsError String
  | [] => .ok "[object Object]"
  | (k, _) :: rest => if k = "toString" then .error .typeError else Json.objToStr rest
end

/-- ECMAScript `ToPropertyKey`: the string under which `o[v]` looks `v` up. -/
def toPropertyKey : JsVal → Except JsError String
  | none => .ok "undefined"
  | some v => v.toStr

/-- JavaScript truthiness, as tested by `!text`. -/
def truthy : JsVal → Bool
  | none => false
  | some .null => false
  | some (.bool b) => b
  | some (.num n) => n != 0
  | some (.str s) => s != ""
  | some (.arr _) => true
  | some (.obj _) => true

/-! ## Data model -/

/-- A user record of `dbManager.db.users`. -/
structure User where
  id : String
  team_id : String
  name : String
deriving DecidableEq, Repr

/-- A team record of `dbManager.db.teams`. -/
structure Team where
  id : String
  domain : String
  name : String
deriving DecidableEq, Repr

/-- The part of `dbManager.db` the routes read directly; `sessions` maps the
hex md5 digest of a token to a user id. -/
structure Db where
  users : List User
  teams : List Team
  sessions : List (String × String)

/-- Lookup `sessions[key]`: the user id stored under the key, `undefined`
otherwise.  (A name inherited from `Object.prototype` yields a function or an
object, which is `===` to no user id; it is read as `undefined` too.) -/
def sessionsGet : List (String × String) → String → Option String
  | [], _ => none
  | (k, id) :: rest, key => if k = key then some id else sessionsGet rest key

/-- The value of `ws.clientType`. -/
inductive ClientType where
  | bot
  | ui
deriving DecidableEq, Repr

/-- A connection: the socket object (by identity) with the tags admission
writes on it; `ws.user` and `ws.team` can be `undefined`. -/
structure Conn where
  sock : Nat
  clientType : ClientType
  user : Option User
  team : Option Team
deriving DecidableEq, Repr

/-- A message record of the store, with the three properties the RTM handler
attaches to it (`user`, `team`, `channel`). -/
structure Message where
  ts : String
  user_id : String
  text : JsVal
  hideHeader : JsVal
  channel : JsVal
  user : Option User
  team : Option Team

/-- The acknowledgment object built by `handlers.message`; `reply_to` is
`none` when the property is not set. -/
structure MessageAck where
  ok : Bool
  channel : JsVal
  text : JsVal
  reply_to : JsVal
  message : Message
  ts : String

/-- An object handed to `wsManager.sendJson`: `{ type: 'hello' }`,
`{ reply_to, type: 'pong', time }`, or the acknowledgment of a message. -/
inductive Envelope where
  | hello
  | pong (reply_to : JsVal) (time : JsVal)
  | ack (response : MessageAck)

/-- The result of `factories.createMessageResponse`, kept as its arguments. -/
structure MessageResponse where
  ts : String
  channel : JsVal
  text : String
  hideHeader : JsVal
  user : User
  team : Option Team

/-- What is serialised by `JSON.stringify` for a broadcast: the record of the
RTM handler, the `message` of a `createResponse` result, or the result of
`factories.createUpdateMessageEvent`, kept as its arguments. -/
inductive Payload where
  | record (message : Message)
  | responseMessage (response : MessageResponse)
  | updateEvent (channel : JsVal) (message previousMessage : Message)
      (user : User) (team : Option Team)

/-- A body passed to `res.json`: `responses.cant_update_message`, the object
`{ ok: true, channel, ts, text }`, or a `createResponse` result. -/
inductive Reply where
  | cant_update_message
  | updated (channel ts text : JsVal)
  | messageResponse (response : MessageResponse)

/-- A call on a collaborator.  `resRedirect` is the redirect of
`postMessageHandler`, recorded by the channel id its target is built from. -/
inductive Call where
  | sendJson (sock : Nat) (e : Envelope)
  | broadcast (p : Payload) (userId : String)
  | broadcastToBots (p : Payload) (userId : String)
  | broadcastToBot (p : Payload) (channel : JsVal)
  | createMessage (channel : JsVal) (authorId : String) (body : Json)
  | updateMessage (channel : JsVal) (record : Message)
  | resJson (r : Reply)
  | resRedirect (channelId : JsVal)

/-- The collaborators defined outside the routes: the record store behind
`dbManager.channel(c)`, the default session of `dbManager` (its user is taken
to exist: the HTTP handlers read its `id` unguarded), the predicates of `utils`
and `String.prototype.trim`. -/
structure Env (σ : Type) where
  createMessage : σ → JsVal → String → Json → Message × σ
  findMessageByTs : σ → JsVal → JsVal → Option Message
  updateMessage : σ → JsVal → Message → Message × σ
  slackUser : User
  slackTeam : Option Team
  isOpenChannel : JsVal → Bool
  isBot : σ → JsVal → Bool
  getChannelId : JsVal → JsVal
  trim : String → String

/-- The mutable state: the record store, `wsManager.slackBots`,
`wsManager.slackWss` and the log of collaborator calls. -/
structure World (σ : Type) where
  store : σ
  slackBots : List Conn
  slackWss : List Conn
  log : List Call

/-- What a handler leaves behind: the world, and the exception that ended it. -/
structure Outcome (σ : Type) where
  world : World σ
  thrown : Option JsError

/-- Record one collaborator call. -/
def World.call {σ : Type} (w : World σ) (c : Call) : World σ :=
  { w with log := w.log ++ [c] }

/-- Membership of a socket in a connection set. -/
def hasSock (s : List Conn) (sock : Nat) : Bool :=
  s.any (fun c => c.sock == sock)

/-- The `add` of a JavaScript `Set` of sockets. -/
def setAdd (s : List Conn) (c : Conn) : List Conn :=
  if hasSock s c.sock then s else s ++ [c]

/-! ## `routes/rtm/index.js` -/

/-- What `handlers[key]` evaluates to.  `handlers` is an object literal, so
besides its two own properties it answers to the members of
`Object.prototype`. -/
inductive Slot where
  | ping
  | message
  | objectPrototype
  | defineAccessor
  | inertBuiltin
  | undefined
deriving DecidableEq, Repr

/-- Property lookup `handlers[key]`: `__proto__` is `Object.prototype` itself
(truthy, not callable); `__defineGetter__` and `__defineSetter__` throw when
their second argument is not callable; the other inherited functions return
without effect when called as `f(ws, jsonMsg)`. -/
def handlersGet (key : String) : Slot :=
  if key = "ping" then .ping
  else if key = "message" then .message
  else if key = "__proto__" then .objectPrototype
  else if key = "__defineGetter__" ∨ key = "__defineSetter__" then .defineAccessor
  else if key = "constructor" ∨ key = "hasOwnProperty" ∨ key = "isPrototypeOf"
      ∨ key = "propertyIsEnumerable" ∨ key = "toString" ∨ key = "toLocaleString"
      ∨ key = "valueOf" ∨ key = "__lookupGetter__" ∨ key = "__lookupSetter__" then .inertBuiltin
  else .undefined

/-- The three assignments `message.user = ws.user`, `message.team = ws.team`,
`message.channel = msg.channel` of `handlers.message`. -/
def attachIdentity (ws : Conn) (channel : JsVal) (m : Message) : Message :=
  { m with user := ws.user, team := ws.team, channel := channel }

namespace handlers

/-- The `ping` entry of `handlers`. -/
def ping {σ : Type} (ws : Conn) (msg : Json) (w : World σ) : Outcome σ :=
  match getProp msg "id" with
  | .error e => ⟨w, some e⟩
  | .ok id =>
    match getProp msg "time" with
    | .error e => ⟨w, some e⟩
    | .ok time => ⟨w.call (.sendJson ws.sock (.pong id time)), none⟩

/-- The `message` entry of `handlers`.  Reading `ws.user.id` throws when the
connection has no user, before `createMessage` is called. -/
def message {σ : Type} (env : Env σ) (ws : Conn) (msg : Json) (w : World σ) : Outcome σ :=
  match getProp msg "channel" with
  | .error e => ⟨w, some e⟩
  | .ok channel =>
    match getProp msg "text" with
    | .error e => ⟨w, some e⟩
    | .ok text =>
      match getProp msg "id" with
      | .error e => ⟨w, some e⟩
      | .ok id =>
        match ws.user with
        | none => ⟨w, some .typeError⟩
        | some user =>
          let created := env.createMessage w.store channel user.id msg
          let message : Message := attachIdentity ws channel created.1
          let response : MessageAck :=
            { ok := true, channel := message.channel, text := text, reply_to := id,
              message := message, ts := message.ts }
          let w1 : World σ :=
            { w with store := created.2,
                     log := w.log ++ [.createMessage channel user.id msg] }
          let w2 := w1.call (.sendJson ws.sock (.ack response))
          let w3 := w2.call (.broadcast (.record response.message) user.id)
          ⟨w3.call (.broadcastToBots (.record response.message) user.id), none⟩

end handlers

/-- An inbound frame, by what `JSON.parse` makes of it: a `SyntaxError`, or a
value. -/
inductive Frame where
  | malformed (raw : String)
  | parsed (value : Json)

/-- The `message` listener both endpoints install on a connection. -/
def onMessage {σ : Type} (env : Env σ) (ws : Conn) (frame : Frame) (w : World σ) : Outcome σ :=
  match frame with
  | .malformed _ => ⟨w, some .syntaxError⟩
  | .parsed jsonMsg =>
    match getProp jsonMsg "type" with
    | .error e => ⟨w, some e⟩
    | .ok type =>
      match toPropertyKey type with
      | .error e => ⟨w, some e⟩
      | .ok key =>
        match handlersGet key with
        | .undefined => ⟨w, none⟩
        | .ping => handlers.ping ws jsonMsg w
        | .message => handlers.message env ws jsonMsg w
        | .objectPrototype => ⟨w, some .typeError⟩
        | .defineAccessor => ⟨w, some .typeError⟩
        | .inertBuiltin => ⟨w, none⟩

/-- The property key `sessions[uid]` is read under.  `uid` is the query
parameter as the string it converts to; a missing parameter is `undefined`,
whose key is the string `undefined`. -/
def uidKey (uid : Option String) : String :=
  uid.getD "undefined"

/-- The expression `dbManager.db.teams.filter(tm => tm.id === ws.user.team_id)[0]`:
the callback reads `ws.user.team_id` once per team, so with `ws.user`
undefined it throws exactly when there is a team to test. -/
def teamOf (teams : List Team) (user : Option User) : Except JsError (Option Team) :=
  match user with
  | some u => .ok (teams.filter (fun tm => tm.id == u.team_id)).head?
  | none => if teams.isEmpty then .ok none else .error .typeError

/-- The handler of `router.ws('/ws', ...)` up to the installation of the
listeners: `users.filter(...)[0]` is the first user whose id is the session's,
`undefined` when there is none. -/
def wsRoute {σ : Type} (db : Db) (sock : Nat) (uid : Option String) (w : World σ) : Outcome σ :=
  let sid := sessionsGet db.sessions (uidKey uid)
  let user := (db.users.filter (fun u => some u.id == sid)).head?
  match teamOf db.teams user with
  | .error e => ⟨w, some e⟩
  | .ok team =>
    let ws : Conn := { sock := sock, clientType := .bot, user := user, team := team }
    let w1 := { w with slackBots := setAdd w.slackBots ws }
    ⟨w1.call (.sendJson sock .hello), none⟩

/-- The handler of `router.ws('/slack', ...)` up to the installation of the
listeners. -/
def slackRoute {σ : Type} (env : Env σ) (sock : Nat) (w : World σ) : Outcome σ :=
  let ws : Conn :=
    { sock := sock, clientType := .ui, user := some env.slackUser, team := env.slackTeam }
  ⟨{ w with slackWss := setAdd w.slackWss ws }, none⟩

/-! ## `routes/api/index.js` -/

/-- The audience routine `broadcastResponse({ payload, channel, userId })`. -/
def broadcastResponse {σ : Type} (env : Env σ) (payload : Payload) (channel : JsVal)
    (userId : String) (w : World σ) : World σ :=
  let w1 := w.call (.broadcast payload userId)
  let w2 := if env.isOpenChannel channel then w1.call (.broadcastToBots payload userId) else w1
  if env.isBot w2.store channel then w2.call (.broadcastToBot payload channel) else w2

/-- An HTTP request as the handlers see it: the parsed body and what
`utils.isUrlEncodedForm` and `utils.isMultipartForm` answer for it. -/
structure Request where
  body : List (String × Json)
  isUrlEncodedForm : Bool
  isMultipartForm : Bool

/-- The handler of `POST /chat.postMessage`. -/
def postMessageHandler {σ : Type} (env : Env σ) (req : Request) (w : World σ) : Outcome σ :=
  let bodyChannel := getField req.body "channel"
  let created := env.createMessage w.store bodyChannel env.slackUser.id (.obj req.body)
  let message := created.1
  let w1 : World σ :=
    { w with store := created.2,
             log := w.log ++ [.createMessage bodyChannel env.slackUser.id (.obj req.body)] }
  if req.isUrlEncodedForm || req.isMultipartForm then
    ⟨w1.call (.resRedirect (env.getChannelId bodyChannel)), none⟩
  else
    let channel := env.getChannelId bodyChannel
    let user := env.slackUser
    let team := env.slackTeam
    match getField req.body "text" with
    | some (.str text) =>
      let response : MessageResponse :=
        { ts := message.ts, channel := channel, text := env.trim text,
          hideHeader := message.hideHeader, user := user, team := team }
      let w2 := broadcastResponse env (.responseMessage response) channel user.id w1
      ⟨w2.call (.resJson (.messageResponse response)), none⟩
    | _ => ⟨w1, some .typeError⟩

/-- The object `{ ...previousMessage, text }` handed to `updateMessage`. -/
def editedRecord (previousMessage : Message) (text : JsVal) : Message :=
  { previousMessage with text := text }

/-- The handler of `POST /chat.update`. -/
def chatUpdateHandler {σ : Type} (env : Env σ) (db : Db) (req : Request) (w : World σ) :
    Outcome σ :=
  let channel := getField req.body "channel"
  let ts := getField req.body "ts"
  let text := getField req.body "text"
  let previousMessage := env.findMessageByTs w.store channel ts
  let user := env.slackUser
  let team := (db.teams.filter (fun tm => tm.id == user.team_id)).head?
  match previousMessage with
  | none => ⟨w.call (.resJson .cant_update_message), none⟩
  | some previous =>
    if previous.user_id != user.id || !truthy text then
      ⟨w.call (.resJson .cant_update_message), none⟩
    else
      let updated := env.updateMessage w.store channel (editedRecord previous text)
      let message := updated.1
      let w1 : World σ :=
        { w with store := updated.2,
                 log := w.log ++ [.updateMessage channel (editedRecord previous text)] }
      let payload := Payload.updateEvent channel message previous user team
      let w2 := broadcastResponse env payload channel user.id w1
      ⟨w2.call (.resJson (.updated channel ts text)), none⟩

/-! ## Reading the log -/

/-- The acknowledgments the log sends to a socket. -/
def acksTo (sock : Nat) : List Call → List MessageAck
  | [] => []
  | .sendJson s (.ack r) :: rest => if s = sock then r :: acksTo sock rest else acksTo sock rest
  | _ :: rest => acksTo sock rest

/-- The greetings in the log, by the socket they are sent to. -/
def hellos : List Call → List Nat
  | [] => []
  | .sendJson s .hello :: rest => s :: hellos rest
  | _ :: rest => hellos rest

/-- Whether a call is `wsManager.broadcast`. -/
def Call.isBroadcast : Call → Bool
  | .broadcast _ _ => true
  | _ => false

/-- Whether a call is `wsManager.broadcastToBots`. -/
def Call.isBroadcastToBots : Call → Bool
  | .broadcastToBots _ _ => true
  | _ => false

/-- Whether a call is `wsManager.broadcastToBot`. -/
def Call.isBroadcastToBot : Call → Bool
  | .broadcastToBot _ _ => true
  | _ => false

/-! ## Sample data

A one-channel list store and a two-user database, used to run the handlers on
concrete inputs. -/

/-- A sample record store: the messages of one channel, oldest first. -/
def sampleEnv : Env (List Message) where
  createMessage store _channel authorId body :=
    let text : JsVal := match body with
      | .obj fields => getField fields "text"
      | _ => none
    let m : Message :=
      { ts := toString (store.length + 1), user_id := authorId, text := text,
        hideHeader := none, channel := none, user := none, team := none }
    (m, store ++ [m])
  findMessageByTs store _channel ts :=
    match ts with
    | some (.str s) => store.find? (fun m => m.ts == s)
    | _ => none
  updateMessage store _channel record :=
    (record, store.map (fun m => if m.ts == record.ts then record else m))
  slackUser := { id := "U1", team_id := "T1", name := "valera" }
  slackTeam := some { id := "T1", domain := "localhost:9001", name := "BotFactory" }
  isOpenChannel channel :=
    match channel with
    | some (.str s) => s == "C1"
    | _ => false
  isBot _store channel :=
    match channel with
    | some (.str s) => s == "U2"
    | _ => false
  getChannelId channel := channel
  trim s := s.trim

/-- A sample bot user. -/
def sampleBot : User := { id := "U2", team_id := "T1", name := "bot" }

/-- A sample team. -/
def sampleTeam : Team := { id := "T1", domain := "localhost:9001", name := "BotFactory" }

/-- A sample database: two users, one team, one session for the bot. -/
def sampleDb : Db where
  users := [{ id := "U1", team_id := "T1", name := "valera" }, sampleBot]
  teams := [sampleTeam]
  sessions := [("0123456789abcdef0123456789abcdef", "U2")]

/-- The sample database with its team list emptied. -/
def noTeamsDb : Db := { sampleDb with teams := [] }

/-- A sample admitted UI connection. -/
def sampleConn : Conn :=
  { sock := 1, clientType := .ui, user := some sampleEnv.slackUser,
    team := sampleEnv.slackTeam }

/-- A sample world: one stored message by `U1`, one by `U2`, socket 1 in the
UI set. -/
def sampleWorld : World (List Message) where
  store :=
    [{ ts := "1", user_id := "U1", text := some (.str "first"), hideHeader := none,
       channel := none, user := none, team := none },
     { ts := "2", user_id := "U2", text := some (.str "second"), hideHeader := none,
       channel := none, user := none, team := none }]
  slackBots := []
  slackWss := [sampleConn]
  log := []

/-! ## Auxiliary facts -/

/-- The first element of a filtered list, when some element passes. -/
theorem filter_head?_of_exists {α : Type} (p : α → Bool) (l : List α) (h : ∃ x ∈ l, p x = true) :
    ∃ y, (l.filter p).head? = some y ∧ y ∈ l ∧ p y = true := by
  cases hf : l.filter p with
  | nil =>
    obtain ⟨x, hx, hpx⟩ := h
    have : x ∈ l.filter p := List.mem_filter.mpr ⟨hx, hpx⟩
    rw [hf] at this
    cases this
  | cons y rest =>
    have hy : y ∈ l.filter p := by rw [hf]; exact List.mem_cons_self y rest
    exact ⟨y, rfl, (List.mem_filter.mp hy).1, (List.mem_filter.mp hy).2⟩

/-- Nothing is first in a filtered list when no element passes. -/
theorem filter_head?_of_forall {α : Type} (p : α → Bool) (l : List α)
    (h : ∀ x ∈ l, p x = false) : (l.filter p).head? = none := by
  have : l.filter p = [] := by
    rw [List.filter_eq_nil_iff]
    intro x hx
    simp [h x hx]
  rw [this]
  rfl

/-- A socket added to a set it was not in is its last element. -/
theorem setAdd_fresh (s : List Conn) (c : Conn) (h : hasSock s c.sock = false) :
    setAdd s c = s ++ [c] := by
  simp [setAdd, h]

/-- A socket is in a set after its `add`. -/
theorem hasSock_append_self (s : List Conn) (c : Conn) : hasSock (s ++ [c]) c.sock = true := by
  simp [hasSock]

/-- A socket is in a set after its `add`, new to the set or not. -/
theorem hasSock_setAdd (s : List Conn) (c : Conn) : hasSock (setAdd s c) c.sock = true := by
  unfold setAdd
  split
  · assumption
  · exact hasSock_append_self s c

/-! ## Admission on the bot endpoint -/

/-- No user is resolved when no user record carries the session's user id. -/
theorem resolve_none (db : Db) (uid : Option String)
    (h : ∀ u ∈ db.users, some u.id ≠ sessionsGet db.sessions (uidKey uid)) :
    (db.users.filter
      (fun u => some u.id == sessionsGet db.sessions (uidKey uid))).head? = none := by
  apply filter_head?_of_forall
  intro u hu
  simpa using h u hu

/-- With at least one team in the database, an unresolved session makes `/ws`
throw on `ws.user.team_id` and leave the world as it was. -/
theorem wsRoute_unresolved_throws {σ : Type} (db : Db) (sock : Nat) (uid : Option String)
    (w : World σ)
    (h : ∀ u ∈ db.users, some u.id ≠ sessionsGet db.sessions (uidKey uid))
    (ht : db.teams ≠ []) :
    wsRoute db sock uid w = ⟨w, some .typeError⟩ := by
  have he : db.teams.isEmpty = false := by
    cases hteams : db.teams with
    | nil => exact absurd hteams ht
    | cons t rest => rfl
  simp only [wsRoute, resolve_none db uid h, teamOf, he]
  rfl

/-- With no team in the database, an unresolved session is admitted on `/ws`:
the socket joins `slackBots` with `user` and `team` undefined and is greeted. -/
theorem wsRoute_unresolved_admitted {σ : Type} (db : Db) (sock : Nat) (uid : Option String)
    (w : World σ)
    (h : ∀ u ∈ db.users, some u.id ≠ sessionsGet db.sessions (uidKey uid))
    (ht : db.teams = []) :
    wsRoute db sock uid w =
      ⟨{ w with
          slackBots := setAdd w.slackBots
            { sock := sock, clientType := .bot, user := none, team := none },
          log := w.log ++ [.sendJson sock .hello] }, none⟩ := by
  simp only [wsRoute, resolve_none db uid h, teamOf, ht]
  rfl

/-- C5 at its failing input: on the sample database with an empty team list, a
connection attempt on `/ws` without `uid` resolves no session and no user, and
yet is added to `slackBots`, with `user` and `team` undefined. -/
theorem wsRoute_admits_unresolved_without_teams :
    noTeamsDb.teams = [] ∧
    sessionsGet noTeamsDb.sessions (uidKey none) = none ∧
    (wsRoute noTeamsDb 5 none sampleWorld).thrown = none ∧
    (wsRoute noTeamsDb 5 none sampleWorld).world.slackBots
      = sampleWorld.slackBots ++ [{ sock := 5, clientType := .bot, user := none, team := none }] ∧
    hasSock sampleWorld.slackBots 5 = false ∧
    hasSock (wsRoute noTeamsDb 5 none sampleWorld).world.slackBots 5 = true :=
  ⟨rfl, rfl, rfl, rfl, rfl, rfl⟩

/-- C6: when `uid` maps through the session map to the id of an existing user
whose `team_id` is the id of an existing team, the socket (new to both sets)
is tagged with a user record carrying that id and a team record whose id is
the user's `team_id`, with role `bot`; it is added to `slackBots` and is not
in `slackWss`. -/
theorem wsRoute_admits_resolved {σ : Type} (db : Db) (sock : Nat) (uid : Option String)
    (w : World σ) (sid : String)
    (hs : sessionsGet db.sessions (uidKey uid) = some sid)
    (hu : ∃ u ∈ db.users, u.id = sid)
    (ht : ∀ u ∈ db.users, u.id = sid → ∃ t ∈ db.teams, t.id = u.team_id)
    (hbots : hasSock w.slackBots sock = false)
    (hui : hasSock w.slackWss sock = false) :
    ∃ u t, u ∈ db.users ∧ u.id = sid ∧ t ∈ db.teams ∧ t.id = u.team_id ∧
      (wsRoute db sock uid w).world.slackBots
        = w.slackBots ++ [{ sock := sock, clientType := .bot, user := some u, team := some t }] ∧
      (wsRoute db sock uid w).world.slackWss = w.slackWss ∧
      hasSock (wsRoute db sock uid w).world.slackBots sock = true ∧
      hasSock (wsRoute db sock uid w).world.slackWss sock = false ∧
      (wsRoute db sock uid w).thrown = none := by
  obtain ⟨u, hfu, hmu, hpu⟩ := filter_head?_of_exists
    (fun u : User => some u.id == sessionsGet db.sessions (uidKey uid)) db.users
    (by
      obtain ⟨u, hu1, hu2⟩ := hu
      exact ⟨u, hu1, by simp [hs, hu2]⟩)
  have hid : u.id = sid := by
    rw [hs] at hpu
    simpa using hpu
  obtain ⟨t, hft, hmt, hpt⟩ := filter_head?_of_exists
    (fun tm : Team => tm.id == u.team_id) db.teams
    (by
      obtain ⟨t, ht1, ht2⟩ := ht u hmu hid
      exact ⟨t, ht1, by simp [ht2]⟩)
  have htid : t.id = u.team_id := by simpa using hpt
  refine ⟨u, t, hmu, hid, hmt, htid, ?_⟩
  have hadd : setAdd w.slackBots
      { sock := sock, clientType := .bot, user := some u, team := some t }
      = w.slackBots ++ [{ sock := sock, clientType := .bot, user := some u, team := some t }] :=
    setAdd_fresh _ _ hbots
  have hrun : wsRoute db sock uid w =
      ⟨{ w with
          slackBots :=
            w.slackBots ++ [{ sock := sock, clientType := .bot, user := some u, team := some t }],
          log := w.log ++ [.sendJson sock .hello] }, none⟩ := by
    simp only [wsRoute, hfu, teamOf, hft, World.call, hadd]
  rw [hrun]
  exact ⟨rfl, rfl, hasSock_append_self w.slackBots
    { sock := sock, clientType := .bot, user := some u, team := some t }, hui, rfl⟩

/-- C6 at a concrete input: the bot's session on the sample database. -/
theorem wsRoute_admits_resolved_witness :
    sessionsGet sampleDb.sessions (uidKey (some "0123456789abcdef0123456789abcdef")) = some "U2" ∧
    (∃ u ∈ sampleDb.users, u.id = "U2") ∧
    (∀ u ∈ sampleDb.users, u.id = "U2" → ∃ t ∈ sampleDb.teams, t.id = u.team_id) ∧
    hasSock sampleWorld.slackBots 5 = false ∧
    hasSock sampleWorld.slackWss 5 = false ∧
    ∃ u t, u ∈ sampleDb.users ∧ u.id = "U2" ∧ t ∈ sampleDb.teams ∧ t.id = u.team_id ∧
      (wsRoute sampleDb 5 (some "0123456789abcdef0123456789abcdef") sampleWorld).world.slackBots
        = sampleWorld.slackBots
          ++ [{ sock := 5, clientType := .bot, user := some u, team := some t }] ∧
      (wsRoute sampleDb 5 (some "0123456789abcdef0123456789abcdef") sampleWorld).world.slackWss
        = sampleWorld.slackWss ∧
      hasSock (wsRoute sampleDb 5 (some "0123456789abcdef0123456789abcdef")
        sampleWorld).world.slackBots 5 = true ∧
      hasSock (wsRoute sampleDb 5 (some "0123456789abcdef0123456789abcdef")
        sampleWorld).world.slackWss 5 = false ∧
      (wsRoute sampleDb 5 (some "0123456789abcdef0123456789abcdef") sampleWorld).thrown = none :=
  have hs : sessionsGet sampleDb.sessions (uidKey (some "0123456789abcdef0123456789abcdef"))
      = some "U2" := by decide
  have hu : ∃ u ∈ sampleDb.users, u.id = "U2" := ⟨sampleBot, by decide, rfl⟩
  have ht : ∀ u ∈ sampleDb.users, u.id = "U2" → ∃ t ∈ sampleDb.teams, t.id = u.team_id := by
    decide
  have hbots : hasSock sampleWorld.slackBots 5 = false := by decide
  have hui : hasSock sampleWorld.slackWss 5 = false := by decide
  ⟨hs, hu, ht, hbots, hui,
    wsRoute_admits_resolved sampleDb 5 (some "0123456789abcdef0123456789abcdef") sampleWorld
      "U2" hs hu ht hbots hui⟩

/-! ## The dispatcher -/

/-- A frame whose type names no member of `handlers` or of `Object.prototype`
is ignored: no exception, the world untouched. -/
theorem onMessage_unknown_ignored {σ : Type} (env : Env σ) (ws : Conn)
    (fields : List (String × Json)) (key : String) (w : World σ)
    (hkey : toPropertyKey (getField fields "type") = .ok key)
    (hslot : handlersGet key = .undefined) :
    onMessage env ws (.parsed (.obj fields)) w = ⟨w, none⟩ := by
  simp only [onMessage, getProp, hkey, hslot]

/-- C7, as stated, fails: on a frame that is not JSON the listener raises. -/
theorem onMessage_malformed_counterexample :
    ¬ ((onMessage sampleEnv sampleConn (.malformed "not json") sampleWorld).thrown = none ∧
       (onMessage sampleEnv sampleConn (.malformed "not json") sampleWorld).world.log
         = sampleWorld.log) := by
  intro h
  exact absurd h.1 (by decide)

/-- C7, amended: on a frame that is not JSON the listener of either endpoint
ends with the `SyntaxError` of `JSON.parse`, which it does not catch; up to
then it has sent no reply, made no broadcast, left the record store and both
connection sets as they were. -/
theorem onMessage_malformed_throws {σ : Type} (env : Env σ) (ws : Conn) (raw : String)
    (w : World σ) :
    (onMessage env ws (.malformed raw) w).thrown = some .syntaxError ∧
    (onMessage env ws (.malformed raw) w).world.log = w.log ∧
    (onMessage env ws (.malformed raw) w).world.store = w.store ∧
    (onMessage env ws (.malformed raw) w).world.slackBots = w.slackBots ∧
    (onMessage env ws (.malformed raw) w).world.slackWss = w.slackWss :=
  ⟨rfl, rfl, rfl, rfl, rfl⟩

/-- C8 at its failing inputs: the frame `null` and a frame of type
`__proto__` end the listener with a `TypeError`, and a frame whose type is the
array `["ping"]`, which is not the string `ping`, is answered with a pong. -/
theorem onMessage_unguarded_types {σ : Type} (env : Env σ) (ws : Conn) (w : World σ) :
    (onMessage env ws (.parsed .null) w).thrown = some .typeError ∧
    (onMessage env ws (.parsed (.obj [("type", .str "__proto__")])) w).thrown
      = some .typeError ∧
    (onMessage env ws (.parsed (.obj [("type", .arr [.str "ping"])])) w).world.log
      = w.log ++ [.sendJson ws.sock (.pong none none)] :=
  ⟨rfl, rfl, rfl⟩

/-- C9: a frame of type `ping` is answered with exactly one envelope, the pong
carrying the frame's `id` as `reply_to` and the frame's `time`, sent to the
connection it came from; nothing else is called, the record store and the
connection sets are as they were. -/
theorem onMessage_ping {σ : Type} (env : Env σ) (ws : Conn) (fields : List (String × Json))
    (w : World σ) (h : getField fields "type" = some (.str "ping")) :
    (onMessage env ws (.parsed (.obj fields)) w).world.log
      = w.log ++ [.sendJson ws.sock (.pong (getField fields "id") (getField fields "time"))] ∧
    (onMessage env ws (.parsed (.obj fields)) w).world.store = w.store ∧
    (onMessage env ws (.parsed (.obj fields)) w).world.slackBots = w.slackBots ∧
    (onMessage env ws (.parsed (.obj fields)) w).world.slackWss = w.slackWss ∧
    (onMessage env ws (.parsed (.obj fields)) w).thrown = none := by
  have hrun : onMessage env ws (.parsed (.obj fields)) w = handlers.ping ws (.obj fields) w := by
    simp only [onMessage, getProp, h, toPropertyKey, Json.toStr]
    rfl
  rw [hrun]
  exact ⟨rfl, rfl, rfl, rfl, rfl⟩

/-- C9 at the frame with `id` 7 and `time` 123. -/
theorem onMessage_ping_witness :
    getField [("type", .str "ping"), ("id", .num 7), ("time", .num 123)] "type"
      = some (.str "ping") ∧
    (onMessage sampleEnv sampleConn
      (.parsed (.obj [("type", .str "ping"), ("id", .num 7), ("time", .num 123)]))
      sampleWorld).world.log
      = sampleWorld.log ++ [.sendJson sampleConn.sock (.pong (some (.num 7)) (some (.num 123)))] :=
  ⟨rfl, (onMessage_ping sampleEnv sampleConn
    [("type", .str "ping"), ("id", .num 7), ("time", .num 123)] sampleWorld rfl).1⟩

/-! ## Admission greetings -/

/-- The greetings of a log extended by one call. -/
theorem hellos_append (l₁ l₂ : List Call) : hellos (l₁ ++ l₂) = hellos l₁ ++ hellos l₂ := by
  induction l₁ with
  | nil => rfl
  | cons c rest ih =>
    cases c with
    | sendJson s e => cases e <;> simp [hellos, ih]
    | _ => simp [hellos, ih]

/-- A successful admission on `/ws` sends one greeting, to the new socket. -/
theorem wsRoute_greets_once {σ : Type} (db : Db) (sock : Nat) (uid : Option String)
    (w : World σ) (h : (wsRoute db sock uid w).thrown = none) :
    hellos (wsRoute db sock uid w).world.log = hellos w.log ++ [sock] := by
  simp only [wsRoute] at h ⊢
  cases ht : teamOf db.teams
      (db.users.filter (fun u => some u.id == sessionsGet db.sessions (uidKey uid))).head? with
  | error e =>
    simp only [ht] at h
    cases h
  | ok team => simp only [World.call, hellos_append, hellos]

/-- C10 on the UI endpoint: admission on `/slack` adds the socket to
`slackWss` and calls nothing, so it sends no greeting. -/
theorem slackRoute_sends_no_greeting {σ : Type} (env : Env σ) (sock : Nat) (w : World σ) :
    (slackRoute env sock w).thrown = none ∧
    hasSock (slackRoute env sock w).world.slackWss sock = true ∧
    (slackRoute env sock w).world.log = w.log ∧
    hellos (slackRoute env sock w).world.log = hellos w.log := by
  exact ⟨rfl, hasSock_setAdd _ _, rfl, rfl⟩

/-! ## The `message` handler -/

/-- The acknowledgments of a log extended by further calls. -/
theorem acksTo_append (sock : Nat) (l₁ l₂ : List Call) :
    acksTo sock (l₁ ++ l₂) = acksTo sock l₁ ++ acksTo sock l₂ := by
  induction l₁ with
  | nil => rfl
  | cons c rest ih =>
    cases c with
    | sendJson s e =>
      cases e with
      | ack r =>
        by_cases hs : s = sock
        · simp [acksTo, hs, ih]
        · simp [acksTo, hs, ih]
      | _ => simp [acksTo, ih]
    | _ => simp [acksTo, ih]

/-- C1 at its failing input: a `message` frame addressed to the bot id `U2`,
which `utils.isBot` recognises and `utils.isOpenChannel` does not, is handed to
`wsManager.broadcastToBots` once and to `wsManager.broadcastToBot` never; the
UI broadcast is made once. -/
theorem message_to_bot_reaches_all_bots :
    sampleEnv.isBot sampleWorld.store (some (.str "U2")) = true ∧
    sampleEnv.isOpenChannel (some (.str "U2")) = false ∧
    ((handlers.message sampleEnv sampleConn
      (.obj [("type", .str "message"), ("channel", .str "U2"), ("text", .str "hi")])
      sampleWorld).world.log.countP Call.isBroadcastToBots = 1) ∧
    ((handlers.message sampleEnv sampleConn
      (.obj [("type", .str "message"), ("channel", .str "U2"), ("text", .str "hi")])
      sampleWorld).world.log.countP Call.isBroadcastToBot = 0) ∧
    ((handlers.message sampleEnv sampleConn
      (.obj [("type", .str "message"), ("channel", .str "U2"), ("text", .str "hi")])
      sampleWorld).world.log.countP Call.isBroadcast = 1) :=
  ⟨rfl, rfl, rfl, rfl, rfl⟩

/-- The bot fan-out of `handlers.message` does not look at the channel: every
frame on a connection with a user adds one `broadcast` and one
`broadcastToBots` call to the log, and no `broadcastToBot` call. -/
theorem message_fanout {σ : Type} (env : Env σ) (ws : Conn) (user : User)
    (fields : List (String × Json)) (w : World σ) (hu : ws.user = some user) :
    (handlers.message env ws (.obj fields) w).world.log.countP Call.isBroadcast
      = w.log.countP Call.isBroadcast + 1 ∧
    (handlers.message env ws (.obj fields) w).world.log.countP Call.isBroadcastToBots
      = w.log.countP Call.isBroadcastToBots + 1 ∧
    (handlers.message env ws (.obj fields) w).world.log.countP Call.isBroadcastToBot
      = w.log.countP Call.isBroadcastToBot := by
  simp [handlers.message, getProp, hu, World.call, List.countP_append, Call.isBroadcast,
    Call.isBroadcastToBots, Call.isBroadcastToBot]

/-- On a connection without a user the `message` handler throws before it
creates, sends or broadcasts anything. -/
theorem message_without_user {σ : Type} (env : Env σ) (ws : Conn)
    (fields : List (String × Json)) (w : World σ) (hu : ws.user = none) :
    handlers.message env ws (.obj fields) w = ⟨w, some .typeError⟩ := by
  simp only [handlers.message, getProp, hu]

/-- C2: for a `message` frame on a connection with a user, the handler first
has `createMessage` make the record, with the connection's user id as author,
then sends one acknowledgment to the connection the frame came from.  The
acknowledgment has `ok` true, the frame's `channel` and `text`, as `message`
the created record (with the connection's user and team and the frame's
channel written on it), as `ts` the record's `ts`, and as `reply_to` the
frame's `id`, the property being set exactly when the frame has an `id`. -/
theorem message_ack {σ : Type} (env : Env σ) (ws : Conn) (user : User)
    (fields : List (String × Json)) (w : World σ) (hu : ws.user = some user) :
    let channel := getField fields "channel"
    let created := env.createMessage w.store channel user.id (.obj fields)
    let ack : MessageAck :=
      { ok := true, channel := channel, text := getField fields "text",
        reply_to := getField fields "id",
        message := attachIdentity ws channel created.1, ts := created.1.ts }
    (handlers.message env ws (.obj fields) w).thrown = none ∧
    (handlers.message env ws (.obj fields) w).world.store = created.2 ∧
    (handlers.message env ws (.obj fields) w).world.log
      = w.log ++
        [.createMessage channel user.id (.obj fields),
         .sendJson ws.sock (.ack ack),
         .broadcast (.record ack.message) user.id,
         .broadcastToBots (.record ack.message) user.id] ∧
    acksTo ws.sock (handlers.message env ws (.obj fields) w).world.log
      = acksTo ws.sock w.log ++ [ack] ∧
    ack.message.ts = created.1.ts ∧
    ack.message.user_id = created.1.user_id ∧
    ack.message.text = created.1.text ∧
    (ack.reply_to = none ↔ getField fields "id" = none) := by
  intro channel created ack
  have hrun : handlers.message env ws (.obj fields) w =
      ⟨{ w with
          store := created.2,
          log := w.log ++
            [.createMessage channel user.id (.obj fields),
             .sendJson ws.sock (.ack ack),
             .broadcast (.record ack.message) user.id,
             .broadcastToBots (.record ack.message) user.id] }, none⟩ := by
    simp [handlers.message, getProp, hu, World.call, attachIdentity, channel, created, ack]
  rw [hrun]
  refine ⟨rfl, rfl, rfl, ?_, rfl, rfl, rfl, Iff.rfl⟩
  simp [acksTo_append, acksTo]

/-- C2 at a concrete input: a frame with `id` 3 on the sample connection. -/
theorem message_ack_witness :
    sampleConn.user = some sampleEnv.slackUser ∧
    acksTo 1 (handlers.message sampleEnv sampleConn
      (.obj [("type", .str "message"), ("id", .num 3), ("channel", .str "C1"),
        ("text", .str "hi")]) sampleWorld).world.log
      = [{ ok := true, channel := some (.str "C1"), text := some (.str "hi"),
           reply_to := some (.num 3),
           message :=
             { ts := "3", user_id := "U1", text := some (.str "hi"), hideHeader := none,
               channel := some (.str "C1"), user := some sampleEnv.slackUser,
               team := sampleEnv.slackTeam },
           ts := "3" }] :=
  ⟨rfl, (message_ack sampleEnv sampleConn sampleEnv.slackUser
    [("type", .str "message"), ("id", .num 3), ("channel", .str "C1"), ("text", .str "hi")]
    sampleWorld rfl).2.2.2.1⟩

/-! ## The audience routine and the edit flow -/

/-- The calls `broadcastResponse` makes: the UI broadcast, then the bot
fan-outs its two tests select; the store is left as it was. -/
theorem broadcastResponse_log {σ : Type} (env : Env σ) (payload : Payload) (channel : JsVal)
    (userId : String) (w : World σ) :
    (broadcastResponse env payload channel userId w).log
      = w.log ++ [.broadcast payload userId]
        ++ (if env.isOpenChannel channel then [.broadcastToBots payload userId] else [])
        ++ (if env.isBot w.store channel then [.broadcastToBot payload channel] else []) ∧
    (broadcastResponse env payload channel userId w).store = w.store ∧
    (broadcastResponse env payload channel userId w).slackBots = w.slackBots ∧
    (broadcastResponse env payload channel userId w).slackWss = w.slackWss := by
  unfold broadcastResponse
  by_cases ho : env.isOpenChannel channel = true <;>
    by_cases hb : env.isBot w.store channel = true <;>
    simp [World.call, ho, hb]

/-- A request that fails one of the three tests of `chatUpdateHandler` is
answered with `cant_update_message` and nothing else happens. -/
theorem chatUpdate_reject_of_test {σ : Type} (env : Env σ) (db : Db) (req : Request)
    (w : World σ)
    (h : ∀ m, env.findMessageByTs w.store (getField req.body "channel") (getField req.body "ts")
        = some m → m.user_id ≠ env.slackUser.id ∨ truthy (getField req.body "text") = false) :
    chatUpdateHandler env db req w = ⟨w.call (.resJson .cant_update_message), none⟩ := by
  simp only [chatUpdateHandler]
  cases hf : env.findMessageByTs w.store (getField req.body "channel")
      (getField req.body "ts") with
  | none => rfl
  | some m =>
    have hm := h m hf
    have hc : (m.user_id != env.slackUser.id || !truthy (getField req.body "text")) = true := by
      rcases hm with hm | hm
      · simp [hm]
      · simp [hm]
    simp only [hc, if_true]

/-- C3: when no message is found at (channel, ts), or the message found has a
`user_id` other than the current user's id, or `text` is missing or the empty
string, `chatUpdateHandler` replies `cant_update_message` and does nothing
else: no `updateMessage` call, no broadcast call, the record store as it
was. -/
theorem chatUpdate_rejected {σ : Type} (env : Env σ) (db : Db) (req : Request) (w : World σ)
    (h : env.findMessageByTs w.store (getField req.body "channel") (getField req.body "ts")
          = none ∨
        (∃ m, env.findMessageByTs w.store (getField req.body "channel")
          (getField req.body "ts") = some m ∧ m.user_id ≠ env.slackUser.id) ∨
        getField req.body "text" = none ∨ getField req.body "text" = some (.str "")) :
    (chatUpdateHandler env db req w).world.log = w.log ++ [.resJson .cant_update_message] ∧
    (chatUpdateHandler env db req w).world.store = w.store ∧
    (chatUpdateHandler env db req w).thrown = none := by
  have hrun : chatUpdateHandler env db req w = ⟨w.call (.resJson .cant_update_message), none⟩ := by
    apply chatUpdate_reject_of_test
    intro m hm
    rcases h with h | ⟨m', hm', hne⟩ | h | h
    · rw [h] at hm
      cases hm
    · rw [hm'] at hm
      cases hm
      exact Or.inl hne
    · exact Or.inr (by rw [h]; rfl)
    · exact Or.inr (by rw [h]; rfl)
  rw [hrun]
  exact ⟨rfl, rfl, rfl⟩

/-- C3 at a concrete input: the current user `U1` edits the message of `U2`. -/
theorem chatUpdate_rejected_witness :
    (sampleEnv.findMessageByTs sampleWorld.store
        (getField [("channel", .str "C1"), ("ts", .str "2"), ("text", .str "new")] "channel")
        (getField [("channel", .str "C1"), ("ts", .str "2"), ("text", .str "new")] "ts") = none ∨
      (∃ m, sampleEnv.findMessageByTs sampleWorld.store
        (getField [("channel", .str "C1"), ("ts", .str "2"), ("text", .str "new")] "channel")
        (getField [("channel", .str "C1"), ("ts", .str "2"), ("text", .str "new")] "ts") = some m ∧
        m.user_id ≠ sampleEnv.slackUser.id) ∨
      getField [("channel", .str "C1"), ("ts", .str "2"), ("text", .str "new")] "text" = none ∨
      getField [("channel", .str "C1"), ("ts", .str "2"), ("text", .str "new")] "text"
        = some (.str "")) ∧
    (chatUpdateHandler sampleEnv sampleDb
      ⟨[("channel", .str "C1"), ("ts", .str "2"), ("text", .str "new")], false, false⟩
      sampleWorld).world.log = sampleWorld.log ++ [.resJson .cant_update_message] ∧
    (chatUpdateHandler sampleEnv sampleDb
      ⟨[("channel", .str "C1"), ("ts", .str "2"), ("text", .str "new")], false, false⟩
      sampleWorld).world.store = sampleWorld.store ∧
    (chatUpdateHandler sampleEnv sampleDb
      ⟨[("channel", .str "C1"), ("ts", .str "2"), ("text", .str "new")], false, false⟩
      sampleWorld).thrown = none :=
  have h : sampleEnv.findMessageByTs sampleWorld.store
        (getField [("channel", .str "C1"), ("ts", .str "2"), ("text", .str "new")] "channel")
        (getField [("channel", .str "C1"), ("ts", .str "2"), ("text", .str "new")] "ts") = none ∨
      (∃ m, sampleEnv.findMessageByTs sampleWorld.store
        (getField [("channel", .str "C1"), ("ts", .str "2"), ("text", .str "new")] "channel")
        (getField [("channel", .str "C1"), ("ts", .str "2"), ("text", .str "new")] "ts") = some m ∧
        m.user_id ≠ sampleEnv.slackUser.id) ∨
      getField [("channel", .str "C1"), ("ts", .str "2"), ("text", .str "new")] "text" = none ∨
      getField [("channel", .str "C1"), ("ts", .str "2"), ("text", .str "new")] "text"
        = some (.str "") :=
    Or.inr (Or.inl ⟨_, rfl, by decide⟩)
  ⟨h, chatUpdate_rejected sampleEnv sampleDb
    ⟨[("channel", .str "C1"), ("ts", .str "2"), ("text", .str "new")], false, false⟩
    sampleWorld h⟩

/-- Message creation over HTTP hands its event to `broadcastResponse`: for a
request that is not a form and has a string `text`, `postMessageHandler`
creates the record, runs the audience routine once and replies. -/
theorem postMessage_uses_broadcastResponse {σ : Type} (env : Env σ) (req : Request)
    (w : World σ) (text : String)
    (hform : (req.isUrlEncodedForm || req.isMultipartForm) = false)
    (htext : getField req.body "text" = some (.str text)) :
    ∃ response : MessageResponse, ∃ w1 : World σ,
      w1.log = w.log ++
        [.createMessage (getField req.body "channel") env.slackUser.id (.obj req.body)] ∧
      postMessageHandler env req w =
        ⟨(broadcastResponse env (.responseMessage response)
            (env.getChannelId (getField req.body "channel")) env.slackUser.id w1).call
          (.resJson (.messageResponse response)), none⟩ := by
  refine ⟨{ ts := (env.createMessage w.store (getField req.body "channel") env.slackUser.id
              (.obj req.body)).1.ts,
            channel := env.getChannelId (getField req.body "channel"),
            text := env.trim text,
            hideHeader := (env.createMessage w.store (getField req.body "channel")
              env.slackUser.id (.obj req.body)).1.hideHeader,
            user := env.slackUser, team := env.slackTeam },
          { w with
            store := (env.createMessage w.store (getField req.body "channel") env.slackUser.id
              (.obj req.body)).2,
            log := w.log ++
              [.createMessage (getField req.body "channel") env.slackUser.id (.obj req.body)] },
          rfl, ?_⟩
  simp only [postMessageHandler, hform, htext]
  rfl

/-- C4: when a message is found at (channel, ts), its `user_id` is the current
user's id and `text` is a non-empty string, `chatUpdateHandler` passes to
`updateMessage` the previous record with `text` replaced and every other
field, `ts` and `user_id` among them, kept; it then runs `broadcastResponse`
once, on the update event built from the channel, the updated and the previous
message, the current user and the user's team, which makes one UI broadcast
and the bot fan-outs the routine selects; and it replies `ok` with the
request's `channel`, `ts` and `text`.  `postMessageHandler` runs the same
routine on message creation. -/
theorem chatUpdate_accepted {σ : Type} (env : Env σ) (db : Db) (req : Request) (w : World σ)
    (previous : Message) (text : String)
    (hfind : env.findMessageByTs w.store (getField req.body "channel")
      (getField req.body "ts") = some previous)
    (hauthor : previous.user_id = env.slackUser.id)
    (htext : getField req.body "text" = some (.str text))
    (hne : text ≠ "") :
    let channel := getField req.body "channel"
    let ts := getField req.body "ts"
    let record := editedRecord previous (some (.str text))
    let updated := env.updateMessage w.store channel record
    let event := Payload.updateEvent channel updated.1 previous env.slackUser
      (db.teams.filter (fun tm => tm.id == env.slackUser.team_id)).head?
    let w1 : World σ :=
      { w with store := updated.2, log := w.log ++ [.updateMessage channel record] }
    (record.text = some (.str text) ∧ record.ts = previous.ts ∧
      record.user_id = previous.user_id ∧ record.hideHeader = previous.hideHeader ∧
      record.channel = previous.channel ∧ record.user = previous.user ∧
      record.team = previous.team) ∧
    chatUpdateHandler env db req w =
      ⟨(broadcastResponse env event channel env.slackUser.id w1).call
        (.resJson (.updated channel ts (some (.str text)))), none⟩ ∧
    (chatUpdateHandler env db req w).world.log =
      w.log ++ [.updateMessage channel record]
        ++ [.broadcast event env.slackUser.id]
        ++ (if env.isOpenChannel channel then [.broadcastToBots event env.slackUser.id] else [])
        ++ (if env.isBot updated.2 channel then [.broadcastToBot event channel] else [])
        ++ [.resJson (.updated channel ts (some (.str text)))] ∧
    (chatUpdateHandler env db req w).world.store = updated.2 ∧
    ∀ (req2 : Request) (w2 : World σ) (text2 : String),
      (req2.isUrlEncodedForm || req2.isMultipartForm) = false →
      getField req2.body "text" = some (.str text2) →
      ∃ response : MessageResponse, ∃ w3 : World σ,
        postMessageHandler env req2 w2 =
          ⟨(broadcastResponse env (.responseMessage response)
              (env.getChannelId (getField req2.body "channel")) env.slackUser.id w3).call
            (.resJson (.messageResponse response)), none⟩ := by
  intro channel ts record updated event w1
  have hc : (previous.user_id != env.slackUser.id || !truthy (getField req.body "text"))
      = false := by
    simp [hauthor, htext, truthy, hne]
  have hrun : chatUpdateHandler env db req w =
      ⟨(broadcastResponse env event channel env.slackUser.id w1).call
        (.resJson (.updated channel ts (some (.str text)))), none⟩ := by
    simp only [chatUpdateHandler, hfind, hc]
    rw [htext]
    rfl
  refine ⟨⟨rfl, rfl, rfl, rfl, rfl, rfl, rfl⟩, hrun, ?_, ?_, ?_⟩
  · rw [hrun]
    simp only [World.call]
    rw [(broadcastResponse_log env _ _ _ _).1]
  · rw [hrun]
    simp only [World.call]
    rw [(broadcastResponse_log env _ _ _ _).2.1]
  · intro req2 w2 text2 hform2 htext2
    obtain ⟨response, w3, _, h3⟩ :=
      postMessage_uses_broadcastResponse env req2 w2 text2 hform2 htext2
    exact ⟨response, w3, h3⟩

/-- C4 at a concrete input: the current user `U1` edits the message at `ts` 1
in the open channel `C1`. -/
theorem chatUpdate_accepted_witness :
    sampleEnv.findMessageByTs sampleWorld.store
      (getField [("channel", .str "C1"), ("ts", .str "1"), ("text", .str "new")] "channel")
      (getField [("channel", .str "C1"), ("ts", .str "1"), ("text", .str "new")] "ts")
      = some { ts := "1", user_id := "U1", text := some (.str "first"), hideHeader := none,
               channel := none, user := none, team := none } ∧
    ("U1" : String) = sampleEnv.slackUser.id ∧
    getField [("channel", .str "C1"), ("ts", .str "1"), ("text", .str "new")] "text"
      = some (.str "new") ∧
    ("new" : String) ≠ "" ∧
    (chatUpdateHandler sampleEnv sampleDb
      ⟨[("channel", .str "C1"), ("ts", .str "1"), ("text", .str "new")], false, false⟩
      sampleWorld).world.store
      = [{ ts := "1", user_id := "U1", text := some (.str "new"), hideHeader := none,
           channel := none, user := none, team := none },
         { ts := "2", user_id := "U2", text := some (.str "second"), hideHeader := none,
           channel := none, user := none, team := none }] :=
  ⟨rfl, rfl, rfl, by decide,
    (chatUpdate_accepted sampleEnv sampleDb
      ⟨[("channel", .str "C1"), ("ts", .str "1"), ("text", .str "new")], false, false⟩
      sampleWorld
      { ts := "1", user_id := "U1", text := some (.str "first"), hideHeader := none,
        channel := none, user := none, team := none }
      "new" rfl rfl rfl (by decide)).2.2.2.1⟩

end MadFakeSlack
